import Mathlib

/-!
Verification of the submission validation and approval pipeline of the
level-up-community-commands repository.

The JavaScript sources are embedded shallowly: pure functions become Lean
functions, the file-system state threaded by the materializer becomes
explicit state passing, JavaScript numbers holding integer scores become
Nat or Int, nullable values become Option, and code that throws becomes
Except.  External collaborators (the JSON.parse builtin, the real AI
service) are modelled as function parameters; the MD5 and SHA-256 digests
called through the node crypto library are implemented concretely below so
that identifier and checksum computations can be evaluated on concrete
inputs.
-/

namespace Approval

/-- A single issue reported by the AI safety analysis. -/
structure AIIssue where
  severity : String
  category : String
deriving DecidableEq, Repr

end Approval

namespace Parser

/-- A submitted command as the validator sees it: in JavaScript a missing
name or code field and an empty string are both falsy, so both are
represented by the empty string. -/
structure Command where
  name : String
  code : String
deriving DecidableEq, Repr

/-- The metadata fields consulted by validateCollection, as produced by
extractMetadata. -/
structure ParsedMetadata where
  name : String
  description : String
  commandCount : Nat
deriving DecidableEq, Repr

/-- ASCII whitespace, the model of the regex class backslash-s. -/
def wsChar (c : Char) : Bool :=
  c = ' ' || c = '\t' || c = '\n' || c = '\r' || c = '\x0b' || c = '\x0c'

/-- Helper for the eval pattern: after the letters eval, skip whitespace
and require an opening parenthesis. -/
def openParenAfterWs : List Char → Bool
  | [] => false
  | c :: rest => if c = '(' then true else if wsChar c then openParenAfterWs rest else false

/-- One position of the case-insensitive regex eval-backslash-s-star-paren,
applied to lowercased text. -/
def evalCallAt : List Char → Bool
  | 'e' :: 'v' :: 'a' :: 'l' :: rest => openParenAfterWs rest
  | _ => false

/-- Scan of all positions for the eval pattern. -/
def scanEvalCall : List Char → Bool
  | [] => false
  | c :: rest => evalCallAt (c :: rest) || scanEvalCall rest

/-- command.code.match of the dangerous eval regex (case-insensitive). -/
def containsEvalCall (code : String) : Bool :=
  scanEvalCall code.toLower.data

/-- Character class of the URL regex body. -/
def urlBodyChar (c : Char) : Bool :=
  c.isAlpha || c.isDigit || c = '.' || c = '-'

/-- One position of the case-insensitive regex http s-question colon slash
slash followed by at least one body character, on lowercased text. -/
def urlAt : List Char → Bool
  | 'h' :: 't' :: 't' :: 'p' :: 's' :: ':' :: '/' :: '/' :: c :: _ => urlBodyChar c
  | 'h' :: 't' :: 't' :: 'p' :: ':' :: '/' :: '/' :: c :: _ => urlBodyChar c
  | _ => false

/-- Scan of all positions for the hardcoded URL pattern. -/
def scanUrl : List Char → Bool
  | [] => false
  | c :: rest => urlAt (c :: rest) || scanUrl rest

/-- command.code.match of the hardcoded-URL regex (case-insensitive). -/
def containsUrl (code : String) : Bool :=
  scanUrl code.toLower.data

/-- calculateValidationScore: start at 100, subtract 25 per error and 10
per warning, add a bonus of 5 when there are at least 3 commands, then
clamp with Math.max(0, Math.min(100, score)). -/
def calculateValidationScore (errorCount warningCount commandCount : Nat) : Int :=
  let score : Int := 100 - errorCount * 25 - warningCount * 10
  let score := if 3 ≤ commandCount then score + 5 else score
  max 0 (min 100 score)

/-- The per-command validation loop: for the command at (zero-based)
position i it records a missing-name error, a missing-code error, a
dangerous-eval error and a hardcoded-URL warning, in source order. -/
def commandChecks : List Command → Nat → List String × List String
  | [], _ => ([], [])
  | c :: rest, i =>
    let tail := commandChecks rest (i + 1)
    let errs :=
      (if c.name = "" then [s!"Command {i + 1} is missing a name"] else []) ++
      (if c.code = "" then [s!"Command {i + 1} is missing JavaScript code"] else []) ++
      (if c.code ≠ "" ∧ containsEvalCall c.code then
        [s!"Command {i + 1} contains dangerous eval() function"] else [])
    let warns :=
      if c.code ≠ "" ∧ containsUrl c.code then
        [s!"Command {i + 1} contains hardcoded URLs"] else []
    (errs ++ tail.1, warns ++ tail.2)

/-- Result record of validateCollection. -/
structure ValidationOutput where
  valid : Bool
  errors : List String
  warnings : List String
  score : Int
deriving DecidableEq, Repr

/-- validateCollection of the CollectionIssueParser, as a function of the
values its extraction calls produce from the body: the extracted metadata,
command list and contact info, and the presence of a checked checklist box
in the body. -/
def validateCollection (metadata : ParsedMetadata) (commands : List Command)
    (contactInfo : String) (hasChecklist : Bool) : ValidationOutput :=
  let requiredErrors :=
    (if metadata.name = "" then ["Collection name is required"] else []) ++
    (if metadata.description = "" then ["Collection description is required"] else []) ++
    (if contactInfo = "" then ["Contact information (GitHub username) is required"] else []) ++
    (if commands.isEmpty then
      ["Commands JSON is required and must contain at least one command"] else [])
  let perCommand := commandChecks commands 0
  let countWarning :=
    if ¬ commands.isEmpty ∧ metadata.commandCount ≠ 0 ∧
        metadata.commandCount ≠ commands.length then
      [s!"Declared command count ({metadata.commandCount}) doesn\x27t match actual count ({commands.length})"]
    else []
  let checklistWarning := if hasChecklist then [] else ["Safety checklist not completed"]
  let errors := requiredErrors ++ perCommand.1
  let warnings := perCommand.2 ++ countWarning ++ checklistWarning
  { valid := errors.isEmpty, errors := errors, warnings := warnings,
    score := calculateValidationScore errors.length warnings.length commands.length }

end Parser

namespace Extractor

/-- JSON values as produced by the JSON.parse builtin. -/
inductive Json where
  | null : Json
  | bool : Bool → Json
  | num : Int → Json
  | str : String → Json
  | arr : List Json → Json
  | obj : List (String × Json) → Json

/-- Leading-whitespace drop of a trim. -/
def dropLeadingWs (l : List Char) : List Char :=
  l.dropWhile Parser.wsChar

/-- Trailing-whitespace drop of a trim (remove trailing whitespace, i.e.
drop from the reversed list). -/
def dropTrailingWs (l : List Char) : List Char :=
  List.rdropWhile Parser.wsChar l

/-- String.prototype.trim over character lists. -/
def trimChars (l : List Char) : List Char :=
  dropTrailingWs (dropLeadingWs l)

/-- trim as a String operation. -/
def jsTrim (s : String) : String :=
  String.mk (trimChars s.data)

/-- First-dash replacement over characters, the model of fieldId.replace
with a dash and a space (the JavaScript replace of a string pattern
replaces only the first occurrence). -/
def replaceFirstDashChars : List Char → List Char
  | [] => []
  | c :: rest => if c = '-' then ' ' :: rest else c :: replaceFirstDashChars rest

/-- First-dash replacement as a String operation. -/
def replaceFirstDash (s : String) : String :=
  String.mk (replaceFirstDashChars s.data)

/-- Substring containment over characters, the model of
String.prototype.includes. -/
def containsChars (pat : List Char) : List Char → Bool
  | [] => pat.isPrefixOf []
  | c :: rest => pat.isPrefixOf (c :: rest) || containsChars pat rest

/-- Lowercasing over the character list, the model of
String.prototype.toLowerCase on ASCII text. -/
def toLowerStr (s : String) : String :=
  String.mk (s.data.map Char.toLower)

/-- Line splitting on the newline character, the model of
String.prototype.split. -/
def splitLinesAux : List Char → List Char → List String
  | [], acc => [String.mk acc.reverse]
  | c :: rest, acc =>
    if c = '\n' then String.mk acc.reverse :: splitLinesAux rest []
    else splitLinesAux rest (c :: acc)

/-- Line splitting of a body string. -/
def splitLines (s : String) : List String :=
  splitLinesAux s.data []

/-- The four header variants tried by extractField. -/
def fieldVariants (fieldId : String) : List String :=
  ["### " ++ fieldId, "### " ++ replaceFirstDash fieldId,
    "**" ++ fieldId ++ ":**", "**" ++ replaceFirstDash fieldId ++ ":**"]

/-- Case-insensitive containment test of a header variant in a trimmed
line. -/
def isFieldHeader (variants : List String) (line : String) : Bool :=
  variants.any fun v =>
    containsChars (toLowerStr v).data (toLowerStr (jsTrim line)).data

/-- A content-collection stop: the next line opens another field header. -/
def stopsCollection (line : String) : Bool :=
  ("###".data).isPrefixOf (jsTrim line).data ||
    ("**".data).isPrefixOf (jsTrim line).data ||
    ("##".data).isPrefixOf (jsTrim line).data

/-- Newline join, the model of Array.prototype.join on the collected
content lines. -/
def joinLines : List String → List Char
  | [] => []
  | [l] => l.data
  | l :: rest => l.data ++ '\n' :: joinLines rest

/-- Content run after a matched header: the following lines up to the next
header, joined and trimmed. -/
def collectContent (lines : List String) : String :=
  jsTrim (String.mk (joinLines (lines.takeWhile fun l => !stopsCollection l)))

/-- Line scan of extractField: the first header line wins. -/
def extractFieldGo (variants : List String) : List String → String
  | [] => ""
  | l :: rest =>
    if isFieldHeader variants l then collectContent rest
    else extractFieldGo variants rest

/-- extractField of the collection organizer variant of the parser:
line-based scan for a header variant, collecting until the next header,
returning the empty string when the field is absent. -/
def extractField (body fieldId : String) : String :=
  extractFieldGo (fieldVariants fieldId) (splitLines body)

/-- extractJsonFromCodeBlock: trim, strip a leading json code fence or a
bare fence, strip a trailing fence, trim again. -/
def extractJsonFromCodeBlock (text : String) : String :=
  let jsonText := (jsTrim text).data
  let jsonText :=
    if ("```json".data).isPrefixOf jsonText then jsonText.drop 7
    else if ("```".data).isPrefixOf jsonText then jsonText.drop 3
    else jsonText
  let jsonText :=
    if ("```".data).isSuffixOf jsonText then jsonText.take (jsonText.length - 3)
    else jsonText
  String.mk (trimChars jsonText)

/-- The field names tried in order for the commands payload. -/
def commandsFieldNames : List String :=
  ["Commands JSON Export", "commands-json", "Commands JSON", "JSON Export"]

/-- The field-name loop of extractCommands: the first name whose extracted
field is truthy (nonempty) wins. -/
def firstNonemptyField (body : String) : List String → String
  | [] => ""
  | n :: rest =>
    let f := extractField body n
    if f = "" then firstNonemptyField body rest else f

/-- Property lookup on a parsed JSON object. -/
def lookupField (fields : List (String × Json)) (key : String) : Option Json :=
  (fields.find? fun f => f.1 == key).map fun f => f.2

/-- Shape dispatch of extractCommands on the parsed value: an object with
an array commands property yields that array, a bare array yields itself,
and every other shape ends in the catch (the throw on an invalid structure
and the type error on null are both caught) returning the empty list. -/
def extractCommandsFromJson : Json → List Json
  | .obj fields =>
    match lookupField fields "commands" with
    | some (.arr xs) => xs
    | _ => []
  | .arr xs => xs
  | _ => []

/-- extractCommands of the collection organizer variant: locate the
commands payload field, strip code fences, parse (the JSON.parse builtin
is the parse parameter, returning none where JSON.parse throws), dispatch
on the shape; every failure path returns the empty list. -/
def extractCommands (parse : String → Option Json) (body : String) : List Json :=
  let commandsJsonField := firstNonemptyField body commandsFieldNames
  if commandsJsonField = "" then []
  else
    match parse (extractJsonFromCodeBlock commandsJsonField) with
    | none => []
    | some j => extractCommandsFromJson j

end Extractor

namespace Crypto

/-- All-ones 32-bit mask. -/
def mask32 : Nat := 4294967295

/-- Addition modulo 2^32. -/
def add32 (a b : Nat) : Nat := (a + b) % 4294967296

/-- Bitwise complement on 32 bits. -/
def not32 (a : Nat) : Nat := a ^^^ mask32

/-- Left rotation on 32 bits. -/
def rotl32 (x n : Nat) : Nat :=
  ((x <<< n) ||| (x >>> (32 - n))) &&& mask32

/-- Right rotation on 32 bits. -/
def rotr32 (x n : Nat) : Nat :=
  ((x >>> n) ||| (x <<< (32 - n))) &&& mask32

/-- Little-endian byte decomposition of a value into n bytes. -/
def toLE : Nat → Nat → List Nat
  | 0, _ => []
  | n + 1, v => v % 256 :: toLE n (v / 256)

/-- Big-endian byte decomposition of a value into n bytes. -/
def toBE (n v : Nat) : List Nat := (toLE n v).reverse

/-- 64-byte chunking, structurally recursive with a reversed accumulator
(the padded message length is always a multiple of 64). -/
def chunks64Go : List Nat → List Nat → List (List Nat)
  | [], acc => if acc = [] then [] else [acc.reverse]
  | b :: rest, acc =>
    if acc.length = 63 then (b :: acc).reverse :: chunks64Go rest []
    else chunks64Go rest (b :: acc)

/-- 64-byte chunking of a padded message. -/
def chunks64 (l : List Nat) : List (List Nat) := chunks64Go l []

/-- Little-endian 32-bit word assembly. -/
def toWordsLE : List Nat → List Nat
  | b0 :: b1 :: b2 :: b3 :: rest =>
    (b0 + 256 * (b1 + 256 * (b2 + 256 * b3))) :: toWordsLE rest
  | _ => []

/-- Big-endian 32-bit word assembly. -/
def toWordsBE : List Nat → List Nat
  | b0 :: b1 :: b2 :: b3 :: rest =>
    (((b0 * 256 + b1) * 256 + b2) * 256 + b3) :: toWordsBE rest
  | _ => []

/-- MD5 padding: a 0x80 byte, zeros to 56 mod 64, and the bit length as
eight little-endian bytes. -/
def padMD5 (msg : List Nat) : List Nat :=
  msg ++ 128 :: List.replicate ((119 - msg.length % 64) % 64) 0 ++
    toLE 8 (msg.length * 8)

/-- The 64 MD5 sine-derived round constants. -/
def md5K : List Nat :=
  [3614090360, 3905402710, 606105819, 3250441966,
   4118548399, 1200080426, 2821735955, 4249261313,
   1770035416, 2336552879, 4294925233, 2304563134,
   1804603682, 4254626195, 2792965006, 1236535329,
   4129170786, 3225465664, 643717713, 3921069994,
   3593408605, 38016083, 3634488961, 3889429448,
   568446438, 3275163606, 4107603335, 1163531501,
   2850285829, 4243563512, 1735328473, 2368359562,
   4294588738, 2272392833, 1839030562, 4259657740,
   2763975236, 1272893353, 4139469664, 3200236656,
   681279174, 3936430074, 3572445317, 76029189,
   3654602809, 3873151461, 530742520, 3299628645,
   4096336452, 1126891415, 2878612391, 4237533241,
   1700485571, 2399980690, 4293915773, 2240044497,
   1873313359, 4264355552, 2734768916, 1309151649,
   4149444226, 3174756917, 718787259, 3951481745]

/-- The MD5 per-round left-rotation amounts. -/
def md5S : List Nat :=
  [7, 12, 17, 22, 7, 12, 17, 22, 7, 12, 17, 22, 7, 12, 17, 22,
   5, 9, 14, 20, 5, 9, 14, 20, 5, 9, 14, 20, 5, 9, 14, 20,
   4, 11, 16, 23, 4, 11, 16, 23, 4, 11, 16, 23, 4, 11, 16, 23,
   6, 10, 15, 21, 6, 10, 15, 21, 6, 10, 15, 21, 6, 10, 15, 21]

/-- The MD5 round mixing function. -/
def md5F (i b c d : Nat) : Nat :=
  if i < 16 then (b &&& c) ||| (not32 b &&& d)
  else if i < 32 then (d &&& b) ||| (not32 d &&& c)
  else if i < 48 then b ^^^ c ^^^ d
  else c ^^^ (b ||| not32 d)

/-- The MD5 message-word index per round. -/
def md5G (i : Nat) : Nat :=
  if i < 16 then i
  else if i < 32 then (5 * i + 1) % 16
  else if i < 48 then (3 * i + 5) % 16
  else (7 * i) % 16

/-- One MD5 round on the four-word state. -/
def md5Step (w : List Nat) (st : Nat × Nat × Nat × Nat) (i : Nat) :
    Nat × Nat × Nat × Nat :=
  let f := add32 (add32 (add32 (md5F i st.2.1 st.2.2.1 st.2.2.2) st.1)
    (md5K.getD i 0)) (w.getD (md5G i) 0)
  (st.2.2.2, add32 st.2.1 (rotl32 f (md5S.getD i 0)), st.2.1, st.2.2.1)

/-- One 64-byte MD5 block. -/
def md5Block (st : Nat × Nat × Nat × Nat) (chunk : List Nat) :
    Nat × Nat × Nat × Nat :=
  let w := toWordsLE chunk
  let r := (List.range 64).foldl (md5Step w) st
  (add32 st.1 r.1, add32 st.2.1 r.2.1, add32 st.2.2.1 r.2.2.1,
    add32 st.2.2.2 r.2.2.2)

/-- The MD5 initial state. -/
def md5Init : Nat × Nat × Nat × Nat :=
  (1732584193, 4023233417, 2562383102, 271733878)

/-- MD5 digest of a byte sequence. -/
def md5Bytes (msg : List Nat) : List Nat :=
  let r := (chunks64 (padMD5 msg)).foldl md5Block md5Init
  toLE 4 r.1 ++ toLE 4 r.2.1 ++ toLE 4 r.2.2.1 ++ toLE 4 r.2.2.2

/-- Hex digit characters. -/
def hexDigit (n : Nat) : Char := "0123456789abcdef".data.getD n '0'

/-- Lowercase hex rendering of one byte. -/
def byteToHex (b : Nat) : List Char := [hexDigit (b / 16), hexDigit (b % 16)]

/-- Lowercase hex rendering of a byte sequence, the model of digest with
hex encoding. -/
def bytesToHex (bs : List Nat) : String := String.mk (bs.flatMap byteToHex)

/-- Byte sequence of a string: on the ASCII strings fed to the digests in
this development, UTF-8 bytes coincide with code points. -/
def strBytes (s : String) : List Nat := s.data.map Char.toNat

/-- crypto.createHash md5 update digest hex. -/
def md5Hex (s : String) : String := bytesToHex (md5Bytes (strBytes s))

/-- SHA-256 padding: a 0x80 byte, zeros to 56 mod 64, and the bit length
as eight big-endian bytes. -/
def padSHA (msg : List Nat) : List Nat :=
  msg ++ 128 :: List.replicate ((119 - msg.length % 64) % 64) 0 ++
    toBE 8 (msg.length * 8)

/-- The 64 SHA-256 round constants. -/
def sha256K : List Nat :=
  [1116352408, 1899447441, 3049323471, 3921009573,
   961987163, 1508970993, 2453635748, 2870763221,
   3624381080, 310598401, 607225278, 1426881987,
   1925078388, 2162078206, 2614888103, 3248222580,
   3835390401, 4022224774, 264347078, 604807628,
   770255983, 1249150122, 1555081692, 1996064986,
   2554220882, 2821834349, 2952996808, 3210313671,
   3336571891, 3584528711, 113926993, 338241895,
   666307205, 773529912, 1294757372, 1396182291,
   1695183700, 1986661051, 2177026350, 2456956037,
   2730485921, 2820302411, 3259730800, 3345764771,
   3516065817, 3600352804, 4094571909, 275423344,
   430227734, 506948616, 659060556, 883997877,
   958139571, 1322822218, 1537002063, 1747873779,
   1955562222, 2024104815, 2227730452, 2361852424,
   2428436474, 2756734187, 3204031479, 3329325298]

/-- The SHA-256 initial hash state. -/
def sha256Init : List Nat :=
  [1779033703, 3144134277, 1013904242, 2773480762,
   1359893119, 2600822924, 528734635, 1541459225]

/-- One extension word of the SHA-256 message schedule. -/
def shaNextWord (w : List Nat) : Nat :=
  let n := w.length
  let x15 := w.getD (n - 15) 0
  let x2 := w.getD (n - 2) 0
  let s0 := rotr32 x15 7 ^^^ rotr32 x15 18 ^^^ (x15 >>> 3)
  let s1 := rotr32 x2 17 ^^^ rotr32 x2 19 ^^^ (x2 >>> 10)
  add32 (add32 (w.getD (n - 16) 0) s0) (add32 (w.getD (n - 7) 0) s1)

/-- The SHA-256 message schedule: extend 16 words to 64. -/
def schedule (w16 : List Nat) : List Nat :=
  (List.range 48).foldl (fun w _ => w ++ [shaNextWord w]) w16

/-- One SHA-256 round on the eight-word state. -/
def shaStep (w : List Nat) (st : List Nat) (i : Nat) : List Nat :=
  let a := st.getD 0 0
  let b := st.getD 1 0
  let c := st.getD 2 0
  let d := st.getD 3 0
  let e := st.getD 4 0
  let f := st.getD 5 0
  let g := st.getD 6 0
  let h := st.getD 7 0
  let bigS1 := rotr32 e 6 ^^^ rotr32 e 11 ^^^ rotr32 e 25
  let ch := (e &&& f) ^^^ (not32 e &&& g)
  let temp1 := add32 (add32 (add32 h bigS1)
    (add32 ch (sha256K.getD i 0))) (w.getD i 0)
  let bigS0 := rotr32 a 2 ^^^ rotr32 a 13 ^^^ rotr32 a 22
  let maj := (a &&& b) ^^^ (a &&& c) ^^^ (b &&& c)
  let temp2 := add32 bigS0 maj
  [add32 temp1 temp2, a, b, c, add32 d temp1, e, f, g]

/-- One 64-byte SHA-256 block. -/
def shaBlock (st : List Nat) (chunk : List Nat) : List Nat :=
  let r := (List.range 64).foldl (shaStep (schedule (toWordsBE chunk))) st
  (st.zip r).map fun p => add32 p.1 p.2

/-- SHA-256 digest of a byte sequence. -/
def sha256Bytes (msg : List Nat) : List Nat :=
  ((chunks64 (padSHA msg)).foldl shaBlock sha256Init).flatMap (toBE 4)

/-- crypto.createHash sha256 update digest hex. -/
def sha256Hex (s : String) : String := bytesToHex (sha256Bytes (strBytes s))

end Crypto

namespace Organizer

/-- substring from zero over characters, the model of
String.prototype.substring(0, n). -/
def strTake (s : String) (n : Nat) : String := String.mk (s.data.take n)

/-- Metadata slice consulted by the collection organizer. -/
structure OrgMetadata where
  name : String
  submittedBy : String
deriving DecidableEq, Repr

/-- Issue information slice consulted by the collection organizer. -/
structure IssueInfo where
  number : Nat
deriving DecidableEq, Repr

/-- Parsed issue data as consumed by generateCollectionId. -/
structure OrgIssueData where
  metadata : OrgMetadata
  issueInfo : IssueInfo
deriving DecidableEq, Repr

/-- generateCollectionId: md5 of name-submittedBy-issueNumber, first 8 hex
characters. -/
def generateCollectionId (d : OrgIssueData) : String :=
  strTake (Crypto.md5Hex (d.metadata.name ++ "-" ++ d.metadata.submittedBy ++
    "-" ++ toString d.issueInfo.number)) 8

/-- generateCommandId of the collection organizer: md5 of the command name
(or the positional fallback cmd-index when the name is falsy) joined with
the first 100 characters of the code, first 8 hex characters. -/
def generateCommandId (c : Parser.Command) (index : Nat) : String :=
  let namePart := if c.name = "" then "cmd-" ++ toString index else c.name
  strTake (Crypto.md5Hex (namePart ++ "-" ++ strTake c.code 100)) 8

/-- A collection reference as upserted into the profile. -/
structure CollectionRef where
  id : String
  name : String
  description : String
  category : String
  commandCount : Nat
  submittedAt : String
  processedAt : String
  fileName : String
  tags : List String
deriving DecidableEq, Repr

/-- The stats block of a user profile. -/
structure ProfileStats where
  totalCollections : Nat
  totalCommands : Nat
  totalDownloads : Nat
  avgRating : Nat
deriving DecidableEq, Repr

/-- A badge on a user profile. -/
structure Badge where
  id : String
  name : String
  description : String
  icon : String
  awardedAt : String
deriving DecidableEq, Repr

/-- A user profile as stored in profile.json. -/
structure Profile where
  username : String
  displayName : String
  joinedAt : String
  collections : List CollectionRef
  stats : ProfileStats
  badges : List Badge
  bio : String
  website : String
  social : List (String × String)
deriving DecidableEq, Repr

/-- awardBadges: evaluate the three badge thresholds against the profile
stats and append any newly earned badges; existing badges are kept. -/
def awardBadges (now : String) (profile : Profile) : Profile :=
  let badges :=
    (if 1 ≤ profile.stats.totalCollections ∧
        ¬ (profile.badges.any fun b => b.id == "first-collection") then
      [{ id := "first-collection", name := "First Collection",
         description := "Submitted your first command collection",
         icon := "🎉", awardedAt := now }] else []) ++
    (if 5 ≤ profile.stats.totalCollections ∧
        ¬ (profile.badges.any fun b => b.id == "prolific-contributor") then
      [{ id := "prolific-contributor", name := "Prolific Contributor",
         description := "Submitted 5 or more collections",
         icon := "🏆", awardedAt := now }] else []) ++
    (if 20 ≤ profile.stats.totalCommands ∧
        ¬ (profile.badges.any fun b => b.id == "command-master") then
      [{ id := "command-master", name := "Command Master",
         description := "Contributed 20 or more commands",
         icon := "⭐", awardedAt := now }] else [])
  { profile with badges := profile.badges ++ badges }

/-- updateUserProfile, with the load-mutate-save around the profile file
made explicit state passing: upsert the collection reference by id,
recompute the stats from the full collection list, then award badges. -/
def updateUserProfile (profile : Profile) (ref : CollectionRef)
    (now : String) : Profile :=
  let collections :=
    match profile.collections.findIdx? (fun c => c.id == ref.id) with
    | some i => profile.collections.set i ref
    | none => profile.collections ++ [ref]
  let stats :=
    { profile.stats with
      totalCollections := collections.length,
      totalCommands := collections.foldl (fun sum c => sum + c.commandCount) 0 }
  awardBadges now { profile with collections := collections, stats := stats }

end Organizer

namespace Scanner

/-- Severity, category and point weight of each entry of the
dangerousPatterns table of the rule-based fallback analysis, in source
order (the regex text of each pattern is external matching machinery; a
command is abstracted by its per-pattern match counts). -/
def dangerousPatterns : List (String × String × Nat) :=
  [("CRITICAL", "Code Injection", 50),
   ("CRITICAL", "Code Injection", 50),
   ("HIGH", "Code Injection", 30),
   ("HIGH", "Code Injection", 30),
   ("HIGH", "XSS Risk", 25),
   ("MEDIUM", "XSS Risk", 15),
   ("CRITICAL", "Hardcoded Credentials", 40),
   ("CRITICAL", "Hardcoded Credentials", 40),
   ("CRITICAL", "Hardcoded Credentials", 40),
   ("HIGH", "Hardcoded Credentials", 30),
   ("MEDIUM", "External Requests", 20),
   ("MEDIUM", "External Requests", 15),
   ("MEDIUM", "External Requests", 15),
   ("MEDIUM", "External Requests", 15),
   ("LOW", "Data Storage", 10),
   ("LOW", "Data Storage", 10),
   ("LOW", "Data Encoding", 5)]

/-- Abstraction of one command given to simulateAIAnalysis: the number of
matches of each dangerous pattern in its code, and the presence of the
three positive patterns. -/
structure CommandAnalysisInput where
  counts : List Nat
  hasTryCatch : Bool
  hasDialog : Bool
  hasStrict : Bool
deriving DecidableEq, Repr

/-- One per-command report of the analysis. -/
structure CommandReport where
  safetyScore : Nat
  riskLevel : String
  issues : List Approval.AIIssue
  autoApprove : Bool
deriving DecidableEq, Repr

/-- determineRiskLevel ladder. -/
def determineRiskLevel (safetyScore : Nat) : String :=
  if 90 ≤ safetyScore then "LOW"
  else if 70 ≤ safetyScore then "MEDIUM"
  else if 50 ≤ safetyScore then "HIGH"
  else "CRITICAL"

/-- simulateAIAnalysis: one issue per pattern match in table order, 100
minus the matched point weights plus the small positive-pattern bonuses,
clamped to the 0 to 100 range; auto-approval per command needs a score of
at least 75 and no CRITICAL issue. -/
def simulateAIAnalysis (input : CommandAnalysisInput) : CommandReport :=
  let issues := (dangerousPatterns.zip input.counts).flatMap fun p =>
    List.replicate p.2 ⟨p.1.1, p.1.2.1⟩
  let penalty : Nat := (dangerousPatterns.zip input.counts).foldl
    (fun s p => s + p.2 * p.1.2.2) 0
  let bonus : Nat := (if input.hasTryCatch then 5 else 0) +
    (if input.hasDialog then 3 else 0) + (if input.hasStrict then 2 else 0)
  let safetyScore := (max 0 (min 100 ((100 : Int) - (penalty : Int) + (bonus : Int)))).toNat
  { safetyScore := safetyScore,
    riskLevel := determineRiskLevel safetyScore,
    issues := issues,
    autoApprove := decide (75 ≤ safetyScore) &&
      !(issues.any fun i => i.severity == "CRITICAL") }

/-- Collection-level report fields set by calculateOverallScores together
with the issue counters aggregated by performSafetyCheck. -/
structure CollectionReport where
  safetyScore : Nat
  riskLevel : String
  autoApprove : Bool
  criticalIssues : Nat
  totalIssues : Nat
deriving DecidableEq, Repr

/-- The criticalIssues counter aggregated over the command reports. -/
def countCritical (reports : List CommandReport) : Nat :=
  ((reports.flatMap fun r => r.issues).filter fun i =>
    i.severity == "CRITICAL").length

/-- Math.round of total divided by n, for positive n, in exact
arithmetic. -/
def jsRoundDiv (total n : Nat) : Nat := (2 * total + n) / (2 * n)

/-- calculateOverallScores: the empty-report degenerate case, else the
rounded mean score, its risk level, and collection-level auto-approval
requiring score at least 75, zero aggregated CRITICAL issues, and every
per-command report auto-approvable. -/
def calculateOverallScores (reports : List CommandReport) : CollectionReport :=
  if reports.isEmpty then
    { safetyScore := 0, riskLevel := "CRITICAL", autoApprove := false,
      criticalIssues := countCritical reports,
      totalIssues := (reports.flatMap fun r => r.issues).length }
  else
    let score := jsRoundDiv (reports.foldl (fun s r => s + r.safetyScore) 0)
      reports.length
    { safetyScore := score,
      riskLevel := determineRiskLevel score,
      autoApprove := decide (75 ≤ score) &&
        decide (countCritical reports = 0) &&
        reports.all (fun r => r.autoApprove),
      criticalIssues := countCritical reports,
      totalIssues := (reports.flatMap fun r => r.issues).length }

end Scanner

namespace Pkg

/-- A raw command as assembled by the package-creation flow, with the
JSON keys in their insertion order: name, description, category, author,
code, tags, icon. -/
structure RawCommand where
  name : String
  description : String
  category : String
  author : String
  code : String
  tags : List String
  icon : String
deriving DecidableEq, Repr

/-- The nested documentation object of a sanitized command. -/
structure Documentation where
  usageInstructions : String
  prerequisites : String
  limitations : String
deriving DecidableEq, Repr

/-- The nested metadata object of a sanitized command. -/
structure CmdMetadata where
  submittedAt : String
  validated : Bool
  validationScore : Nat
deriving DecidableEq, Repr

/-- A sanitized command as stored in a package, keys in insertion order:
id, name, description, category, code, icon, tags, author,
dynamicsVersion, documentation, metadata. -/
structure SanitizedCommand where
  id : String
  name : String
  description : String
  category : String
  code : String
  icon : String
  tags : List String
  author : String
  dynamicsVersion : String
  documentation : Documentation
  metadata : CmdMetadata
deriving DecidableEq, Repr

/-- generateCommandId of the package manager: md5 of name, code and
author concatenated, first 8 hex characters. -/
def generateCommandId (c : RawCommand) : String :=
  Organizer.strTake (Crypto.md5Hex (c.name ++ c.code ++ c.author)) 8

/-- sanitizeCommand: fill defaults for the fields the raw shape lacks and
attach the generated id; submittedAt defaults to the current time. -/
def sanitizeCommand (now : String) (c : RawCommand) : SanitizedCommand :=
  { id := generateCommandId c,
    name := if c.name = "" then "Unnamed Command" else c.name,
    description := c.description,
    category := if c.category = "" then "other" else c.category,
    code := c.code,
    icon := if c.icon = "" then "code" else c.icon,
    tags := c.tags,
    author := if c.author = "" then "Unknown" else c.author,
    dynamicsVersion := "All versions",
    documentation := { usageInstructions := "", prerequisites := "",
                       limitations := "" },
    metadata := { submittedAt := now, validated := false,
                  validationScore := 0 } }

/-- JSON string escaping of a character; the strings handled in this
development contain no control characters, so quote and backslash are the
relevant escapes. -/
def escapeChar (c : Char) : List Char :=
  if c = '"' then ['\\', '"']
  else if c = '\\' then ['\\', '\\']
  else [c]

/-- A JSON string literal. -/
def quote (s : String) : String :=
  "\"" ++ String.mk (s.data.flatMap escapeChar) ++ "\""

/-- Comma join. -/
def joinComma : List String → String
  | [] => ""
  | [x] => x
  | x :: y :: rest => x ++ "," ++ joinComma (y :: rest)

/-- JSON.stringify of an array of strings. -/
def stringifyStrList (xs : List String) : String :=
  "[" ++ joinComma (xs.map quote) ++ "]"

/-- JSON.stringify (compact) of a raw command object. -/
def stringifyRaw (c : RawCommand) : String :=
  "\x7b" ++ quote "name" ++ ":" ++ quote c.name ++
  "," ++ quote "description" ++ ":" ++ quote c.description ++
  "," ++ quote "category" ++ ":" ++ quote c.category ++
  "," ++ quote "author" ++ ":" ++ quote c.author ++
  "," ++ quote "code" ++ ":" ++ quote c.code ++
  "," ++ quote "tags" ++ ":" ++ stringifyStrList c.tags ++
  "," ++ quote "icon" ++ ":" ++ quote c.icon ++ "\x7d"

/-- JSON.stringify (compact) of a sanitized command object, nested
objects included. -/
def stringifySanitized (c : SanitizedCommand) : String :=
  "\x7b" ++ quote "id" ++ ":" ++ quote c.id ++
  "," ++ quote "name" ++ ":" ++ quote c.name ++
  "," ++ quote "description" ++ ":" ++ quote c.description ++
  "," ++ quote "category" ++ ":" ++ quote c.category ++
  "," ++ quote "code" ++ ":" ++ quote c.code ++
  "," ++ quote "icon" ++ ":" ++ quote c.icon ++
  "," ++ quote "tags" ++ ":" ++ stringifyStrList c.tags ++
  "," ++ quote "author" ++ ":" ++ quote c.author ++
  "," ++ quote "dynamicsVersion" ++ ":" ++ quote c.dynamicsVersion ++
  "," ++ quote "documentation" ++ ":" ++
    "\x7b" ++ quote "usageInstructions" ++ ":" ++ quote c.documentation.usageInstructions ++
    "," ++ quote "prerequisites" ++ ":" ++ quote c.documentation.prerequisites ++
    "," ++ quote "limitations" ++ ":" ++ quote c.documentation.limitations ++ "\x7d" ++
  "," ++ quote "metadata" ++ ":" ++
    "\x7b" ++ quote "submittedAt" ++ ":" ++ quote c.metadata.submittedAt ++
    "," ++ quote "validated" ++ ":" ++ (if c.metadata.validated then "true" else "false") ++
    "," ++ quote "validationScore" ++ ":" ++ toString c.metadata.validationScore ++ "\x7d" ++
  "\x7d"

/-- generateChecksum applied to the raw commands array (the argument
createPackage passes): sha256 of the compact JSON. -/
def generateChecksumRaw (cs : List RawCommand) : String :=
  Crypto.sha256Hex ("[" ++ joinComma (cs.map stringifyRaw) ++ "]")

/-- generateChecksum applied to the sanitized commands array (the
argument validatePackage passes): sha256 of the compact JSON. -/
def generateChecksumSanitized (cs : List SanitizedCommand) : String :=
  Crypto.sha256Hex ("[" ++ joinComma (cs.map stringifySanitized) ++ "]")

/-- The package fields read by validatePackage; packageInfo carries no
validated content and is omitted. -/
structure Package where
  version : String
  commands : List SanitizedCommand
  checksum : String
deriving DecidableEq, Repr

/-- createPackage: sanitize the commands into the package but compute the
checksum over the raw commands argument. -/
def createPackage (cs : List RawCommand) (now : String) : Package :=
  { version := "1.0.0",
    commands := cs.map (sanitizeCommand now),
    checksum := generateChecksumRaw cs }

/-- The per-command forEach of validatePackage, throwing on a missing
name or code. -/
def checkCommands : List SanitizedCommand → Nat → Except String Unit
  | [], _ => .ok ()
  | c :: rest, i =>
    if c.name = "" then .error s!"Command {i + 1} missing name"
    else if c.code = "" then .error s!"Command {i + 1} missing code"
    else checkCommands rest (i + 1)

/-- validatePackage: version present, nonempty commands, per-command name
and code present, and, when a checksum is present, the recomputed checksum
over pkg.commands must match it. -/
def validatePackage (pkg : Package) : Except String Unit :=
  if pkg.version = "" then .error "Package missing version"
  else if pkg.commands.isEmpty then .error "Package contains no commands"
  else
    match checkCommands pkg.commands 0 with
    | .error e => .error e
    | .ok _ =>
      if pkg.checksum ≠ "" then
        if generateChecksumSanitized pkg.commands ≠ pkg.checksum then
          .error "Package checksum mismatch - data may be corrupted"
        else .ok ()
      else .ok ()

/-- importPackage with the file reading and JSON round-trip modelled
away: validate and return the package, wrapping a validation throw. -/
def importPackage (pkg : Package) : Except String Package :=
  match validatePackage pkg with
  | .error e => .error ("Invalid package file: " ++ e)
  | .ok _ => .ok pkg

end Pkg

/-! Claim theorems -/

/-- Helper: dropping leading whitespace ignores a leading newline. -/
theorem dropLeadingWs_cons_nl (x : List Char) :
    Extractor.dropLeadingWs ('\n' :: x) = Extractor.dropLeadingWs x := by
  simp [Extractor.dropLeadingWs, List.dropWhile_cons, Parser.wsChar]

/-- Helper: dropping trailing whitespace ignores a trailing newline. -/
theorem dropTrailingWs_append_nl (x : List Char) :
    Extractor.dropTrailingWs (x ++ ['\n']) = Extractor.dropTrailingWs x := by
  simpa [Extractor.dropTrailingWs] using
    List.rdropWhile_concat_pos Parser.wsChar x '\n' (by decide)

/-- Helper: trimming ignores a leading whitespace character. -/
theorem trimChars_cons_ws (c : Char) (hc : Parser.wsChar c = true)
    (t : List Char) :
    Extractor.trimChars (c :: t) = Extractor.trimChars t := by
  unfold Extractor.trimChars
  rw [show Extractor.dropLeadingWs (c :: t) = Extractor.dropLeadingWs t by
    simp [Extractor.dropLeadingWs, List.dropWhile_cons, hc]]

/-- Helper: trimming after appending a newline equals trimming. -/
theorem trim_append_nl (x : List Char) :
    Extractor.dropTrailingWs (Extractor.dropLeadingWs (x ++ ['\n'])) =
      Extractor.trimChars x := by
  induction x with
  | nil => simp [Extractor.dropLeadingWs, Extractor.dropTrailingWs,
      Extractor.trimChars, Parser.wsChar, List.rdropWhile]
  | cons c t ih =>
    by_cases hc : Parser.wsChar c = true
    · rw [show (c :: t) ++ ['\n'] = c :: (t ++ ['\n']) from rfl]
      rw [show Extractor.dropLeadingWs (c :: (t ++ ['\n']))
          = Extractor.dropLeadingWs (t ++ ['\n']) by
        simp [Extractor.dropLeadingWs, List.dropWhile_cons, hc]]
      rw [ih, trimChars_cons_ws c hc t]
    · rw [show Extractor.dropLeadingWs ((c :: t) ++ ['\n'])
          = (c :: t) ++ ['\n'] by
        simp [Extractor.dropLeadingWs, List.dropWhile_cons, hc]]
      rw [dropTrailingWs_append_nl]
      unfold Extractor.trimChars
      rw [show Extractor.dropLeadingWs (c :: t) = c :: t by
        simp [Extractor.dropLeadingWs, List.dropWhile_cons, hc]]

/-- Helper: extractJsonFromCodeBlock on a json-fenced payload, at the
character level. -/
theorem strip_core (x : List Char) :
    Extractor.extractJsonFromCodeBlock
        (String.mk ('`' :: '`' :: '`' :: 'j' :: 's' :: 'o' :: 'n' :: '\n' ::
          (x ++ ['\n', '`', '`', '`']))) =
      String.mk (Extractor.trimChars x) := by
  have htrim : Extractor.trimChars
      ('`' :: '`' :: '`' :: 'j' :: 's' :: 'o' :: 'n' :: '\n' ::
        (x ++ ['\n', '`', '`', '`'])) =
      '`' :: '`' :: '`' :: 'j' :: 's' :: 'o' :: 'n' :: '\n' ::
        (x ++ ['\n', '`', '`', '`']) := by
    unfold Extractor.trimChars
    rw [show Extractor.dropLeadingWs ('`' :: '`' :: '`' :: 'j' :: 's' :: 'o' :: 'n' :: '\n' ::
        (x ++ ['\n', '`', '`', '`'])) = '`' :: '`' :: '`' :: 'j' :: 's' :: 'o' :: 'n' :: '\n' ::
        (x ++ ['\n', '`', '`', '`']) by
      simp [Extractor.dropLeadingWs, List.dropWhile_cons, Parser.wsChar]]
    rw [show '`' :: '`' :: '`' :: 'j' :: 's' :: 'o' :: 'n' :: '\n' ::
        (x ++ ['\n', '`', '`', '`']) =
        ('`' :: '`' :: '`' :: 'j' :: 's' :: 'o' :: 'n' :: '\n' ::
          (x ++ ['\n', '`', '`'])) ++ ['`'] by simp]
    exact List.rdropWhile_concat_neg Parser.wsChar _ '`' (by decide)
  have hpre : ("```json".data).isPrefixOf
      ('`' :: '`' :: '`' :: 'j' :: 's' :: 'o' :: 'n' :: '\n' ::
        (x ++ ['\n', '`', '`', '`'])) = true := by
    rw [List.isPrefixOf_iff_prefix]
    exact ⟨'\n' :: (x ++ ['\n', '`', '`', '`']), rfl⟩
  have hsuf : ("```".data).isSuffixOf
      ('\n' :: (x ++ ['\n', '`', '`', '`'])) = true := by
    rw [List.isSuffixOf_iff_suffix]
    exact ⟨'\n' :: (x ++ ['\n']), by simp⟩
  have htake : ('\n' :: (x ++ ['\n', '`', '`', '`'])).take
      (('\n' :: (x ++ ['\n', '`', '`', '`'])).length - 3) = '\n' :: (x ++ ['\n']) := by
    rw [show '\n' :: (x ++ ['\n', '`', '`', '`'])
        = ('\n' :: (x ++ ['\n'])) ++ ['`', '`', '`'] by simp]
    rw [List.take_left']
    simp
  simp only [Extractor.extractJsonFromCodeBlock]
  rw [show (Extractor.jsTrim (String.mk ('`' :: '`' :: '`' :: 'j' :: 's' :: 'o' :: 'n' :: '\n' ::
      (x ++ ['\n', '`', '`', '`'])))).data = Extractor.trimChars
      ('`' :: '`' :: '`' :: 'j' :: 's' :: 'o' :: 'n' :: '\n' ::
        (x ++ ['\n', '`', '`', '`'])) from rfl]
  rw [htrim]
  simp only [hpre, if_true]
  rw [show List.drop 7 ('`' :: '`' :: '`' :: 'j' :: 's' :: 'o' :: 'n' :: '\n' ::
      (x ++ ['\n', '`', '`', '`'])) = '\n' :: (x ++ ['\n', '`', '`', '`']) from rfl]
  simp only [hsuf, if_true]
  rw [htake]
  rw [show Extractor.trimChars ('\n' :: (x ++ ['\n']))
      = Extractor.dropTrailingWs (Extractor.dropLeadingWs (x ++ ['\n'])) by
    unfold Extractor.trimChars
    rw [dropLeadingWs_cons_nl]]
  rw [trim_append_nl]

/-- C4: for every parsed submission, the validation score equals 100 minus
25 per validation error, minus 10 per validation warning, plus a bonus of
5 when the command count is at least 3, clamped to the interval from 0 to
100; in particular the score lies in that interval for all submissions. -/
theorem c4_validation_score (m : Parser.ParsedMetadata)
    (cs : List Parser.Command) (ci : String) (hc : Bool) :
    (Parser.validateCollection m cs ci hc).score =
      max 0 (min 100
        (100 - 25 * ((Parser.validateCollection m cs ci hc).errors.length : Int)
          - 10 * ((Parser.validateCollection m cs ci hc).warnings.length : Int)
          + (if 3 ≤ cs.length then 5 else 0))) ∧
    0 ≤ (Parser.validateCollection m cs ci hc).score ∧
    (Parser.validateCollection m cs ci hc).score ≤ 100 := by
  have hs : (Parser.validateCollection m cs ci hc).score
      = Parser.calculateValidationScore
          (Parser.validateCollection m cs ci hc).errors.length
          (Parser.validateCollection m cs ci hc).warnings.length cs.length := rfl
  rw [hs]
  simp only [Parser.calculateValidationScore]
  refine ⟨?_, ?_, ?_⟩ <;> split_ifs <;> omega

/-- C6: the commands extractor is a total function that strips
surrounding code-fence markers, accepts either an object holding a
commands array or a bare array, returns the empty list on an absent
payload or any parse failure, and the later validation step records the
missing-commands error when the command list is empty. -/
theorem c6_extractor_contract (parse : String → Option Extractor.Json)
    (body s : String) (fields : List (String × Extractor.Json))
    (xs : List Extractor.Json) (m : Parser.ParsedMetadata) (ci : String)
    (hc : Bool) :
    (Extractor.firstNonemptyField body Extractor.commandsFieldNames = "" →
      Extractor.extractCommands parse body = []) ∧
    (∀ f, Extractor.firstNonemptyField body Extractor.commandsFieldNames = f →
      f ≠ "" →
      ((parse (Extractor.extractJsonFromCodeBlock f) = none →
          Extractor.extractCommands parse body = []) ∧
        (parse (Extractor.extractJsonFromCodeBlock f) =
            some (Extractor.Json.obj fields) →
          Extractor.lookupField fields "commands" =
            some (Extractor.Json.arr xs) →
          Extractor.extractCommands parse body = xs) ∧
        (parse (Extractor.extractJsonFromCodeBlock f) =
            some (Extractor.Json.arr xs) →
          Extractor.extractCommands parse body = xs))) ∧
    (Extractor.extractJsonFromCodeBlock ("```json\n" ++ s ++ "\n```") =
      Extractor.jsTrim s) ∧
    ("Commands JSON is required and must contain at least one command" ∈
      (Parser.validateCollection m [] ci hc).errors) := by
  refine ⟨?_, ?_, ?_, ?_⟩
  · intro h
    simp [Extractor.extractCommands, h]
  · intro f hf hne
    refine ⟨?_, ?_, ?_⟩ <;> intro h1
    · simp [Extractor.extractCommands, hf, hne, h1]
    · intro h2
      simp [Extractor.extractCommands, hf, hne, h1,
        Extractor.extractCommandsFromJson, h2]
    · simp [Extractor.extractCommands, hf, hne, h1,
        Extractor.extractCommandsFromJson]
  · have hdata : ("```json\n" ++ s ++ "\n```")
        = String.mk ('`' :: '`' :: '`' :: 'j' :: 's' :: 'o' :: 'n' :: '\n' ::
          (s.data ++ ['\n', '`', '`', '`'])) := by
      apply String.ext
      simp
    rw [hdata, strip_core]
    rfl
  · simp [Parser.validateCollection, Parser.commandChecks]

/-- Witness for C6 at concrete inputs: the empty body has no commands
field and extraction yields the empty list. -/
theorem c6_extractor_contract_witness :
    Extractor.firstNonemptyField "" Extractor.commandsFieldNames = "" ∧
    Extractor.extractCommands (fun _ => none) "" = [] := by
  refine ⟨by decide, ?_⟩
  exact (c6_extractor_contract (fun _ => none) "" "" [] []
    ⟨"n", "d", 1⟩ "c" true).1 (by decide)

/-- Helper: awardBadges only appends to the badge list. -/
theorem awardBadges_badges (now : String) (p : Organizer.Profile) :
    ∃ l, (Organizer.awardBadges now p).badges = p.badges ++ l :=
  ⟨_, rfl⟩

/-- Helper: updateUserProfile only appends to the badge list. -/
theorem updateUserProfile_badges (p : Organizer.Profile)
    (ref : Organizer.CollectionRef) (now : String) :
    ∃ l, (Organizer.updateUserProfile p ref now).badges = p.badges ++ l :=
  ⟨_, rfl⟩

/-- Helper: any sequence of profile updates only appends to the badge
list. -/
theorem foldl_update_badges (updates : List (Organizer.CollectionRef × String))
    (p : Organizer.Profile) :
    ∃ l, (updates.foldl (fun q u => Organizer.updateUserProfile q u.1 u.2)
      p).badges = p.badges ++ l := by
  induction updates generalizing p with
  | nil => exact ⟨[], by simp⟩
  | cons u rest ih =>
    obtain ⟨l1, h1⟩ := updateUserProfile_badges p u.1 u.2
    obtain ⟨l2, h2⟩ := ih (Organizer.updateUserProfile p u.1 u.2)
    exact ⟨l1 ++ l2, by simp [List.foldl_cons, h2, h1]⟩

/-- C8: across every sequence of collection materializations and profile
recomputations, the badge set never shrinks: badges already present are
carried over unchanged in place and new badges are only appended, whatever
the recomputed stats are. -/
theorem c8_badges_monotone (p : Organizer.Profile)
    (updates : List (Organizer.CollectionRef × String)) :
    p.badges.length ≤
      (updates.foldl (fun q u => Organizer.updateUserProfile q u.1 u.2)
        p).badges.length ∧
    (updates.foldl (fun q u => Organizer.updateUserProfile q u.1 u.2)
        p).badges.take p.badges.length = p.badges := by
  obtain ⟨l, h⟩ := foldl_update_badges updates p
  rw [h]
  exact ⟨by simp, List.take_left p.badges l⟩

/-- C10: updating an existing profile during materialization leaves the
username, display name, join date, bio, website and social fields exactly
as they were; only the collections, stats and badges change. -/
theorem c10_profile_frame (p : Organizer.Profile)
    (ref : Organizer.CollectionRef) (now : String) :
    (Organizer.updateUserProfile p ref now).username = p.username ∧
    (Organizer.updateUserProfile p ref now).displayName = p.displayName ∧
    (Organizer.updateUserProfile p ref now).joinedAt = p.joinedAt ∧
    (Organizer.updateUserProfile p ref now).bio = p.bio ∧
    (Organizer.updateUserProfile p ref now).website = p.website ∧
    (Organizer.updateUserProfile p ref now).social = p.social :=
  ⟨rfl, rfl, rfl, rfl, rfl, rfl⟩

set_option maxRecDepth 100000 in
/-- C3 counterexample: two commands with the same (empty) name and the
same code receive different ids at different positions, so the command id
is not a function of the command name and code prefix alone. -/
theorem c3_counterexample :
    (⟨"", "x"⟩ : Parser.Command).name = (⟨"", "x"⟩ : Parser.Command).name ∧
    Organizer.strTake (⟨"", "x"⟩ : Parser.Command).code 100 =
      Organizer.strTake (⟨"", "x"⟩ : Parser.Command).code 100 ∧
    Organizer.generateCommandId ⟨"", "x"⟩ 0 ≠
      Organizer.generateCommandId ⟨"", "x"⟩ 1 := by
  refine ⟨rfl, rfl, ?_⟩
  decide

/-- C3 (amended): the collection id is a pure function of the collection
name, the submitter and the issue number; the command id is a pure
function of the command name, the first 100 characters of the code and,
only when the name is empty, the positional index; in particular
reprocessing an unchanged submission yields identical collection and
command ids. -/
theorem c3_stable_ids (d1 d2 : Organizer.OrgIssueData)
    (c1 c2 : Parser.Command) (i1 i2 : Nat)
    (hn : d1.metadata.name = d2.metadata.name)
    (hs : d1.metadata.submittedBy = d2.metadata.submittedBy)
    (hi : d1.issueInfo.number = d2.issueInfo.number)
    (hcn : c1.name = c2.name)
    (hcc : Organizer.strTake c1.code 100 = Organizer.strTake c2.code 100)
    (hidx : c1.name = "" → i1 = i2) :
    Organizer.generateCollectionId d1 = Organizer.generateCollectionId d2 ∧
    Organizer.generateCommandId c1 i1 = Organizer.generateCommandId c2 i2 := by
  constructor
  · unfold Organizer.generateCollectionId
    rw [hn, hs, hi]
  · simp only [Organizer.generateCommandId]
    rw [hcn, hcc]
    by_cases h : c2.name = ""
    · rw [hidx (hcn.trans h)]
    · simp [h]

set_option maxRecDepth 100000 in
/-- Witness for C3 at concrete equal inputs with a nonempty name. -/
theorem c3_stable_ids_witness :
    Organizer.generateCollectionId ⟨⟨"My Collection", "alice"⟩, ⟨12⟩⟩ =
      Organizer.generateCollectionId ⟨⟨"My Collection", "alice"⟩, ⟨12⟩⟩ ∧
    Organizer.generateCommandId ⟨"cmd", "code"⟩ 0 =
      Organizer.generateCommandId ⟨"cmd", "code"⟩ 5 :=
  c3_stable_ids ⟨⟨"My Collection", "alice"⟩, ⟨12⟩⟩
    ⟨⟨"My Collection", "alice"⟩, ⟨12⟩⟩ ⟨"cmd", "code"⟩ ⟨"cmd", "code"⟩ 0 5
    rfl rfl rfl rfl rfl (fun h => absurd h (by decide))

/-- C9 counterexample: three fallback command reports with scores 40, 100
and 100 and only HIGH findings give a collection score of 80 and zero
CRITICAL findings, yet the collection hint is false because one command is
not individually auto-approvable. -/
theorem c9_counterexample :
    75 ≤ (Scanner.calculateOverallScores
        [Scanner.simulateAIAnalysis ⟨[0, 0, 2], false, false, false⟩,
         Scanner.simulateAIAnalysis ⟨[], false, false, false⟩,
         Scanner.simulateAIAnalysis ⟨[], false, false, false⟩]).safetyScore ∧
    Scanner.countCritical
        [Scanner.simulateAIAnalysis ⟨[0, 0, 2], false, false, false⟩,
         Scanner.simulateAIAnalysis ⟨[], false, false, false⟩,
         Scanner.simulateAIAnalysis ⟨[], false, false, false⟩] = 0 ∧
    (Scanner.calculateOverallScores
        [Scanner.simulateAIAnalysis ⟨[0, 0, 2], false, false, false⟩,
         Scanner.simulateAIAnalysis ⟨[], false, false, false⟩,
         Scanner.simulateAIAnalysis ⟨[], false, false, false⟩]).autoApprove
      = false := by
  decide

/-- C9 (amended): the collection-level hint is true exactly when the
collection score is at least 75, the findings contain zero CRITICAL items,
and additionally every per-command report is individually
auto-approvable. -/
theorem c9_auto_approve_hint (reports : List Scanner.CommandReport) :
    (Scanner.calculateOverallScores reports).autoApprove = true ↔
      (75 ≤ (Scanner.calculateOverallScores reports).safetyScore ∧
        Scanner.countCritical reports = 0 ∧
        ∀ r ∈ reports, r.autoApprove = true) := by
  unfold Scanner.calculateOverallScores
  split_ifs with h
  · simp
  · simp [Bool.and_eq_true, decide_eq_true_eq, List.all_eq_true, and_assoc]

set_option maxRecDepth 100000 in
/-- C7: the checksum computed by createPackage over the raw commands does
not match the checksum recomputed by validatePackage over the sanitized
commands the package actually stores, so importing a freshly created and
exported package always fails checksum validation. -/
theorem c7_export_import_fails :
    Pkg.importPackage (Pkg.createPackage
        [⟨"a", "d", "other", "u", "x", [], "code"⟩] "t") =
      Except.error
        "Invalid package file: Package checksum mismatch - data may be corrupted" := by
  rfl
